import Mathlib

/-!
# Beam weapon (src/Beam.cpp): shallow embedding and verified properties

The C++ class `Beam` is embedded as a record of its member variables.  Every
member function becomes a pure function from the state before the call to the
state after it, together with the ordered list of calls it makes on its
collaborators (world, struck body, event queue, effects manager).

Conventions of the embedding:

* `float` and `double` values are exact rationals; a literal has the value of
  its `float` (`0.1f` is `13421773 / 2^27`); the rounding of sums and products
  is not modelled.
* A pointer is the address of a live object (`Ptr`); a nullable pointer is an
  `Option Ptr`, with `none` for `nullptr`.
* What the collaborators answer (ray cast, terrain height, type tags, random
  draws, vector library) is read from a `World` record.
* Dereferencing a null `m_parent` has no defined result: the embedded function
  returns `none` there.
-/

namespace Pioneer

/-! ## Scalars, vectors, colours -/

/-- Scalar values (`float`, `double`) as exact rationals. -/
abbrev Scalar := ℚ

/-- The type `vector3d`: three scalar components. -/
structure vector3d where
  x : Scalar
  y : Scalar
  z : Scalar
deriving DecidableEq

namespace vector3d

/-- Componentwise sum, `a + b`. -/
def add (a b : vector3d) : vector3d := ⟨a.x + b.x, a.y + b.y, a.z + b.z⟩

/-- Componentwise difference, `a - b`. -/
def sub (a b : vector3d) : vector3d := ⟨a.x - b.x, a.y - b.y, a.z - b.z⟩

/-- Product with a scalar, `s * a` and `a * s`. -/
def scale (s : Scalar) (a : vector3d) : vector3d := ⟨s * a.x, s * a.y, s * a.z⟩

instance : Add vector3d := ⟨add⟩
instance : Sub vector3d := ⟨sub⟩
instance : HMul Scalar vector3d vector3d := ⟨scale⟩
instance : HMul vector3d Scalar vector3d := ⟨fun a s => scale s a⟩

end vector3d

/-- The type `matrix3x3d`, by rows. -/
structure matrix3x3d where
  r0 : vector3d
  r1 : vector3d
  r2 : vector3d
deriving DecidableEq

/-- The value of `matrix3x3d::Identity()`. -/
def matrix3x3d.Identity : matrix3x3d := ⟨⟨1, 0, 0⟩, ⟨0, 1, 0⟩, ⟨0, 0, 1⟩⟩

/-- The type `Color`: four channels. -/
structure Color where
  r : Nat
  g : Nat
  b : Nat
  a : Nat
deriving DecidableEq

/-! ## Objects, pointers, type tags -/

/-- Address of a live object; `nullptr` is `none` of `Option Ptr`. -/
abbrev Ptr := Nat

/-- Address of a `Frame`. -/
abbrev FramePtr := Nat

/-- Address of a collision geometry (`Geom`). -/
abbrev GeomPtr := Nat

/-- The tags of `Object::Type` that `Beam.cpp` asks about. -/
inductive ObjectType where
  | BODY
  | SHIP
  | PLANET
  | CITYONPLANET
deriving DecidableEq

/-- Modelled from the spec: the dynamic class of an object behind a pointer
(`Object.h` is not part of the sources).  A city-on-planet is collision
geometry distinct from bodies; a ship and a planet are bodies. -/
inductive ObjectClass where
  | cityOnPlanet
  | ship
  | planet
  | otherBody
  | otherObject
deriving DecidableEq

/-- Modelled from the spec: `Object::IsType`, the tag test along the class
hierarchy (`Object.h` is not part of the sources): a ship is a `SHIP` and a
`BODY`, a planet is a `PLANET` and a `BODY`, any other body is a `BODY`, a
city-on-planet is a `CITYONPLANET` only. -/
def IsType : ObjectClass → ObjectType → Bool
  | .cityOnPlanet, .CITYONPLANET => true
  | .ship, .BODY => true
  | .ship, .SHIP => true
  | .planet, .BODY => true
  | .planet, .PLANET => true
  | .otherBody, .BODY => true
  | _, _ => false

/-- The fields of `CollisionContact`; `userData1` is the struck object, null
when the ray struck nothing. -/
structure CollisionContact where
  pos : vector3d
  normal : vector3d
  depth : Scalar
  userData1 : Option Ptr
  userData2 : Option Ptr
deriving DecidableEq

/-- The classification `SystemBody::BodyType`; only `TYPE_PLANET_ASTEROID` is
named by `Beam.cpp`. -/
inductive BodyType where
  | TYPE_PLANET_ASTEROID
  | TYPE_OTHER (code : Nat)
deriving DecidableEq

/-- A `SystemBody`: its path and its classification. -/
structure SystemBody where
  path : Nat
  type : BodyType
deriving DecidableEq

/-- A `CargoBody` as `MiningLaserSpawnTastyStuff` sets it up. -/
structure CargoBody where
  cargo : Nat
  frame : FramePtr
  position : vector3d
  velocity : vector3d
deriving DecidableEq

/-- The argument of `Space::AddBody`: a new cargo body, or the new beam at
the given address. -/
inductive AddedBody where
  | cargo (c : CargoBody)
  | beam (this : Ptr)
deriving DecidableEq

/-- The effect types of `SfxManager`; `Beam.cpp` uses `TYPE_EXPLOSION`. -/
inductive SfxType where
  | TYPE_EXPLOSION
  | TYPE_DAMAGE
  | TYPE_SMOKE
deriving DecidableEq

/-- A call made on a collaborator. -/
inductive Effect where
  | KillBody (body : Ptr)
  | OnDamage (victim : Ptr) (attacker : Option Ptr) (amount : Scalar) (contact : CollisionContact)
  | LuaEventQueue (event : String) (victim : Option Ptr) (attacker : Option Ptr)
  | AddBody (body : AddedBody)
  | SfxAdd (body : Ptr) (type : SfxType)
deriving DecidableEq

/-! ## The beam -/

/-- The state of the base class `Body` that `Beam.cpp` reads or writes. -/
structure Body where
  frame : FramePtr
  position : vector3d
  orient : matrix3x3d
  interpPos : vector3d
  interpOrient : matrix3x3d
  flags : Nat
  clipRadius : Scalar
  physRadius : Scalar
deriving DecidableEq

/-- The member variables of `Beam`. -/
structure Beam extends Body where
  parent : Option Ptr
  dir : vector3d
  baseVel : vector3d
  baseDam : Scalar
  length : Scalar
  age : Scalar
  mining : Bool
  active : Bool
  color : Color
  parentIndex : Int
deriving DecidableEq

/-- The file-local constant `lifetime = 0.1f`: the value of the
single-precision literal, `13421773 / 2^27`, which is the `float` nearest to
one tenth and lies slightly above it. -/
def lifetime : Scalar := 13421773 / 134217728

/-- The answers of the collaborators during one call. -/
structure World where
  classOf : Ptr → ObjectClass
  GetGeom : Ptr → GeomPtr
  TraceRay : FramePtr → vector3d → vector3d → Scalar → GeomPtr → CollisionContact
  FrameGetBody : FramePtr → Option Ptr
  GetSystemBody : Ptr → SystemBody
  GetTerrainHeight : Ptr → vector3d → Scalar
  BodyGetFrame : Ptr → FramePtr
  BodyGetOrient : Ptr → matrix3x3d
  GetBodyByPath : Nat → SystemBody
  SpawnMiningContainer : SystemBody → Nat
  Normalized : vector3d → vector3d
  Length : vector3d → Scalar
  ArbRotate : vector3d → vector3d → Scalar → vector3d
  rngDouble1 : Scalar
  rngDouble2 : Scalar
  rngDoubleRange : Scalar → Scalar → Scalar
  GetTimeStep : Scalar

/-- `Beam::Beam()`: the members the constructor assigns; the members it leaves
unassigned keep the indeterminate values of `raw`, and `drawLast` is the bit
`FLAG_DRAW_LAST`. -/
def Beam.ctor (drawLast : Nat) (raw : Beam) : Beam :=
  { raw with
    orient := matrix3x3d.Identity
    baseDam := 0
    length := 0
    mining := false
    parent := none
    flags := raw.flags ||| drawLast
    age := 0
    active := true }

/-- `Beam::UpdateInterpTransform(alpha)`. -/
def Beam.UpdateInterpTransform (w : World) (b : Beam) (alpha : Scalar) : Beam :=
  let oldPos : vector3d := b.position - (b.baseVel * w.GetTimeStep)
  { b with
    interpOrient := b.orient
    interpPos := alpha * b.position + (1 - alpha) * oldPos }

/-- `Beam::NotifyRemoved(removedBody)`. -/
def Beam.NotifyRemoved (b : Beam) (removedBody : Option Ptr) : Beam :=
  if b.parent = removedBody then { b with parent := none } else b

/-- `Beam::TimeStepUpdate(timeStep)`; `this` is the beam's own address. -/
def Beam.TimeStepUpdate (this : Ptr) (b : Beam) (timeStep : Scalar) : Beam × List Effect :=
  let age := b.age + timeStep
  let kills : List Effect := if age > lifetime then [Effect.KillBody this] else []
  ({ b with age := age, position := b.position + (b.baseVel * timeStep) }, kills)

/-- `Beam::GetDamage()`. -/
def Beam.GetDamage (b : Beam) : Scalar := b.baseDam

/-- `Beam::GetRadius()`: `sqrt(m_length*m_length)`, the absolute value of the
length. -/
def Beam.GetRadius (b : Beam) : Scalar := |b.length|

/-- `MiningLaserSpawnTastyStuff(f, asteroid, pos)`: the cargo body handed to
`Space::AddBody`.  The three draws of `Pi::rng` are `rngDouble1`,
`rngDouble2` and `rngDoubleRange 100 200`, in this order. -/
def MiningLaserSpawnTastyStuff (w : World) (f : FramePtr) (asteroid : SystemBody)
    (pos : vector3d) : List Effect :=
  let liveasteroid := w.GetBodyByPath asteroid.path
  let cargo := w.SpawnMiningContainer liveasteroid
  let x := w.rngDouble1
  let dir := w.ArbRotate (w.Normalized pos) ⟨x, 1 - x, 0⟩ (w.rngDouble2 - 1 / 2)
  [Effect.AddBody (AddedBody.cargo ⟨cargo, f, pos, w.rngDoubleRange 100 200 * dir⟩)]

/-- The ray cast of `Beam::StaticUpdate` (line 249).  The excluded geometry is
read through `m_parent`; with a null parent the call has no result. -/
def Beam.rayCast (w : World) (b : Beam) : Option CollisionContact :=
  match b.parent with
  | none => none
  | some p => some (w.TraceRay b.frame b.position (w.Normalized b.dir) b.length (w.GetGeom p))

/-- The body-hit check of `Beam::StaticUpdate` (lines 251-266) on the contact
`c` of the ray cast. -/
def Beam.resolveContact (w : World) (this : Ptr) (b : Beam) (c : CollisionContact) :
    Beam × List Effect :=
  match c.userData1 with
  | none => (b, [])
  | some o =>
    if IsType (w.classOf o) ObjectType.CITYONPLANET then
      (b, [Effect.KillBody this])
    else if IsType (w.classOf o) ObjectType.BODY then
      if some o ≠ b.parent then
        ({ b with active := false },
          Effect.OnDamage o b.parent b.GetDamage c ::
            (if IsType (w.classOf o) ObjectType.SHIP then
              [Effect.LuaEventQueue "onShipHit" (some o) b.parent]
            else []))
      else (b, [])
    else (b, [])

/-- The terrain check of `Beam::StaticUpdate` (lines 268-285). -/
def Beam.testTerrain (w : World) (this : Ptr) (b : Beam) : Beam × List Effect :=
  if b.mining then
    match w.FrameGetBody b.frame with
    | none => (b, [])
    | some planet =>
      if IsType (w.classOf planet) ObjectType.PLANET then
        let sb := w.GetSystemBody planet
        let pos := b.position
        let terrainHeight := w.GetTerrainHeight planet (w.Normalized pos)
        if terrainHeight > w.Length pos then
          let spawned : List Effect :=
            if sb.type = BodyType.TYPE_PLANET_ASTEROID then
              let n := w.Normalized b.position
              MiningLaserSpawnTastyStuff w (w.BodyGetFrame planet) sb
                  (n * terrainHeight + (5 : Scalar) * n)
                ++ [Effect.SfxAdd this SfxType.TYPE_EXPLOSION]
            else []
          ({ b with active := false }, spawned)
        else (b, [])
      else (b, [])
  else (b, [])

/-- `Beam::StaticUpdate(timeStep)`; `this` is the beam's own address.  The
result is `none` when the call dereferences a null `m_parent`. -/
def Beam.StaticUpdate (w : World) (this : Ptr) (b : Beam) : Option (Beam × List Effect) :=
  if !b.active then some (b, [])
  else
    match b.rayCast w with
    | none => none
    | some c =>
      let r1 := b.resolveContact w this c
      let r2 := r1.1.testTerrain w this
      some (r2.1, r1.2 ++ r2.2)

/-- The fields of `ProjectileData` that `Beam::Add` copies. -/
structure ProjectileData where
  damage : Scalar
  length : Scalar
  mining : Bool
  color : Color

/-- `Beam::Add(parent, prData, pos, baseVel, dir)`: the new beam, allocated at
address `this`, and the call that registers it. -/
def Beam.Add (w : World) (drawLast : Nat) (raw : Beam) (this : Ptr) (parent : Ptr)
    (prData : ProjectileData) (pos baseVel dir : vector3d) : Beam × List Effect :=
  let p := Beam.ctor drawLast raw
  let p := { p with
    parent := some parent
    dir := dir
    baseDam := prData.damage
    length := prData.length
    mining := prData.mining
    color := prData.color
    frame := w.BodyGetFrame parent }
  let p := { p with
    orient := w.BodyGetOrient parent
    position := pos
    baseVel := baseVel }
  let p := { p with clipRadius := p.GetRadius }
  let p := { p with physRadius := p.GetRadius }
  (p, [Effect.AddBody (AddedBody.beam this)])

/-- One simulated tick: a time step and the answers of the collaborators
during it. -/
structure Tick where
  timeStep : Scalar
  world : World

/-- Modelled from the spec: one tick of the owning simulation loop (the loop
is not part of the sources): `TimeStepUpdate`, then `StaticUpdate`. -/
def Beam.tick (this : Ptr) (b : Beam) (t : Tick) : Option (Beam × List Effect) :=
  let r1 := b.TimeStepUpdate this t.timeStep
  match r1.1.StaticUpdate t.world this with
  | none => none
  | some r2 => some (r2.1, r1.2 ++ r2.2)

/-- Modelled from the spec: a finite sequence of ticks of the owning
simulation loop, with the calls of all ticks in order. -/
def Beam.run (this : Ptr) : Beam → List Tick → Option (Beam × List Effect)
  | b, [] => some (b, [])
  | b, t :: ts =>
    match b.tick this t with
    | none => none
    | some r1 =>
      match Beam.run this r1.1 ts with
      | none => none
      | some r2 => some (r2.1, r1.2 ++ r2.2)

/-- Whether a call is an `OnDamage` call. -/
def Effect.isOnDamage : Effect → Bool
  | Effect.OnDamage _ _ _ _ => true
  | _ => false

/-- Whether a call is an `OnDamage` call on the body `p`. -/
def Effect.damages (p : Ptr) : Effect → Bool
  | Effect.OnDamage victim _ _ _ => decide (victim = p)
  | _ => false

/-- Whether a call adds a cargo body to the world. -/
def Effect.isCargoSpawn : Effect → Bool
  | Effect.AddBody (AddedBody.cargo _) => true
  | _ => false

/-- Whether a call triggers an effect of `SfxManager`. -/
def Effect.isSfx : Effect → Bool
  | Effect.SfxAdd _ _ => true
  | _ => false

/-- Whether a call requests the removal of the body at `p`. -/
def Effect.kills (p : Ptr) : Effect → Bool
  | Effect.KillBody body => decide (body = p)
  | _ => false

/-- Whether the contact `c` is with a body other than `parent`: the condition
under which lines 257-264 apply damage. -/
def CollisionContact.isOtherBody (w : World) (parent : Option Ptr) (c : CollisionContact) :
    Bool :=
  match c.userData1 with
  | none => false
  | some hit =>
    !IsType (w.classOf hit) ObjectType.CITYONPLANET && IsType (w.classOf hit) ObjectType.BODY
      && decide (some hit ≠ parent)

/-- Whether the ray cast of the beam strikes a body other than its parent. -/
def Beam.struckOtherBody (w : World) (b : Beam) : Bool :=
  match b.rayCast w with
  | none => false
  | some c => c.isOtherBody w b.parent

/-- Whether the beam is a mining beam in a frame anchored to a planet and is
below the terrain height: the condition under which lines 268-283 deactivate
the beam. -/
def Beam.penetratedTerrain (w : World) (b : Beam) : Bool :=
  b.mining &&
    match w.FrameGetBody b.frame with
    | none => false
    | some planet =>
      IsType (w.classOf planet) ObjectType.PLANET &&
        decide (w.GetTerrainHeight planet (w.Normalized b.position) > w.Length b.position)

/-! ## Persistence -/

/-- The one exception `Beam::LoadFromJson` throws. -/
inductive LoadError where
  | SavedGameCorruptException
deriving DecidableEq

/-- The answers of `Space` to the index queries of save and load. -/
structure Space where
  GetIndexForBody : Option Ptr → Nat
  GetBodyByIndex : Int → Option Ptr

/-- Modelled from the spec: what `Body::SaveToJson` writes for the base class
(`Body.cpp` is not part of the sources): the member `"body"` with the base
entity's own serialized fields, absent (`none`) in a record that lacks it. -/
structure BodyJson where
  body : Option Body
deriving DecidableEq

/-- Modelled from the spec: a vector in the record, `vec3`, each component as
the text of a float. -/
structure JsonVector where
  x : String
  y : String
  z : String
deriving DecidableEq

/-- Modelled from the spec: a colour in the record, `vec4` of integers. -/
structure JsonColor where
  r : Int
  g : Int
  b : Int
  a : Int
deriving DecidableEq

/-- Modelled from the spec: the object stored under `"projectile"`, after the
persisted record schema `dir: vec3, base_dam: string(float), length:
string(float), mining: bool, color: vec4, index_for_body: int`.  A member is
absent (`none`) or holds a value of its schema type. -/
structure ProjectileObj where
  dir : Option JsonVector
  base_dam : Option String
  length : Option String
  mining : Option Bool
  color : Option JsonColor
  index_for_body : Option Int
deriving DecidableEq

/-- Modelled from the spec: the saved record of one beam: the members of the
base class and the optional member `"projectile"`. -/
structure JsonObj where
  body : BodyJson
  projectile : Option ProjectileObj
deriving DecidableEq

/-- Save, load and fix-up of the base class `Body`, whose code is not part of
the sources. -/
structure JsonUtils where
  BodySaveToJson : Body → Space → BodyJson
  BodyLoadFromJson : BodyJson → Space → Body → Except LoadError Body
  BodyPostLoadFixup : Space → Body → Body

/-- Modelled from the spec: the base class as the spec describes it
(`Body.cpp` is not part of the sources): `Body::SaveToJson` emits the base
entity's own fields, `Body::LoadFromJson` reads them back and fails with the
corrupt-save error when they are missing, and the fix-up of the base class
resolves nothing. -/
def bodyUtils : JsonUtils :=
  { BodySaveToJson := fun base _ => ⟨some base⟩
    BodyLoadFromJson := fun jsonObj _ _ =>
      match jsonObj.body with
      | none => Except.error LoadError.SavedGameCorruptException
      | some saved => Except.ok saved
    BodyPostLoadFixup := fun _ base => base }

/-- The character of the decimal digit `d`. -/
def digitChar (d : Nat) : Char := Char.ofNat (48 + d)

/-- The decimal digit a character stands for. -/
def charDigit (c : Char) : Nat := c.toNat - 48

/-- The decimal digits of a natural number, most significant first. -/
def natToText (n : Nat) : List Char := ((Nat.digits 10 n).map digitChar).reverse

/-- The natural number written by a list of decimal digits. -/
def textToNat (text : List Char) : Nat := Nat.ofDigits 10 (text.reverse.map charDigit)

/-- Modelled from the spec: `FloatToStr(val)` (`JsonUtils` is not part of the
sources): numeric fields are stored as decimal text that reproduces the value
exactly.  The scalars of this embedding being exact rationals, the text is
the sign, the numerator in decimal digits, a slash, and the denominator in
decimal digits. -/
def FloatToStr (val : Scalar) : String :=
  String.mk ((if val.num < 0 then '-' else '+') ::
    (natToText val.num.natAbs ++ '/' :: natToText val.den))

/-- Modelled from the spec: `StrToFloat(str)` (`JsonUtils` is not part of the
sources): the value written by the text of `FloatToStr`; zero for the empty
text. -/
def StrToFloat (str : String) : Scalar :=
  match str.data with
  | [] => 0
  | sign :: text =>
    let num : Int := Int.ofNat (textToNat (text.takeWhile (fun c => c != '/')))
    let den : Nat := textToNat ((text.dropWhile (fun c => c != '/')).drop 1)
    mkRat (if sign = '-' then -num else num) den

/-- Modelled from the spec: `VectorToJson(obj, vec, name)` stores the vector
under `name`, each component as the text of a float (`JsonUtils` is not part
of the sources). -/
def VectorToJson (vec : vector3d) : Option JsonVector :=
  some ⟨FloatToStr vec.x, FloatToStr vec.y, FloatToStr vec.z⟩

/-- Modelled from the spec: `JsonToVector(&vec, obj, name)` reads the vector
under `name`; the absence of the member is a corrupt save (`JsonUtils` is not
part of the sources). -/
def JsonToVector : Option JsonVector → Except LoadError vector3d
  | none => Except.error LoadError.SavedGameCorruptException
  | some vec => Except.ok ⟨StrToFloat vec.x, StrToFloat vec.y, StrToFloat vec.z⟩

/-- Modelled from the spec: `ColorToJson(obj, col, name)` stores the colour
under `name`, each channel as an integer (`JsonUtils` is not part of the
sources). -/
def ColorToJson (col : Color) : Option JsonColor :=
  some ⟨Int.ofNat col.r, Int.ofNat col.g, Int.ofNat col.b, Int.ofNat col.a⟩

/-- Modelled from the spec: `JsonToColor(&col, obj, name)` reads the colour
under `name`; the absence of the member is a corrupt save (`JsonUtils` is not
part of the sources). -/
def JsonToColor : Option JsonColor → Except LoadError Color
  | none => Except.error LoadError.SavedGameCorruptException
  | some col => Except.ok ⟨col.r.toNat, col.g.toNat, col.b.toNat, col.a.toNat⟩

/-- `Beam::SaveToJson(jsonObj, space)`: the record written. -/
def Beam.SaveToJson (U : JsonUtils) (b : Beam) (space : Space) : JsonObj :=
  { body := U.BodySaveToJson b.toBody space
    projectile := some
      { dir := VectorToJson b.dir
        base_dam := some (FloatToStr b.baseDam)
        length := some (FloatToStr b.length)
        mining := some b.mining
        color := ColorToJson b.color
        index_for_body := some (Int.ofNat (space.GetIndexForBody b.parent)) } }

/-- `Beam::LoadFromJson(jsonObj, space)` on the beam `b`: the beam after the
call, or the exception thrown. -/
def Beam.LoadFromJson (U : JsonUtils) (jsonObj : JsonObj) (space : Space) (b : Beam) :
    Except LoadError Beam :=
  match U.BodyLoadFromJson jsonObj.body space b.toBody with
  | Except.error e => Except.error e
  | Except.ok base =>
    match jsonObj.projectile with
    | none => Except.error LoadError.SavedGameCorruptException
    | some projectileObj =>
      match projectileObj.base_dam, projectileObj.length, projectileObj.mining,
          projectileObj.color, projectileObj.index_for_body with
      | some base_dam, some length, some mining, some color, some index_for_body =>
        match JsonToVector projectileObj.dir with
        | Except.error e => Except.error e
        | Except.ok dir =>
          match JsonToColor (some color) with
          | Except.error e => Except.error e
          | Except.ok col =>
            Except.ok
              { b with
                toBody := base
                dir := dir
                baseDam := StrToFloat base_dam
                length := StrToFloat length
                mining := mining
                color := col
                parentIndex := index_for_body }
      | _, _, _, _, _ => Except.error LoadError.SavedGameCorruptException

/-- `Beam::PostLoadFixup(space)`. -/
def Beam.PostLoadFixup (U : JsonUtils) (space : Space) (b : Beam) : Beam :=
  { b with
    toBody := U.BodyPostLoadFixup space b.toBody
    parent := space.GetBodyByIndex b.parentIndex }

/-! ## Concrete inputs -/

/-- A contact of the ray with the object `struck` (null: nothing struck). -/
def demoContact (struck : Option Ptr) : CollisionContact :=
  { pos := ⟨1, 0, 5⟩, normal := ⟨0, 0, -1⟩, depth := 4, userData1 := struck, userData2 := none }

/-- A world with the ships 1 and 2, the city-on-planet 3, the planet 4 that
anchors frame 20 and the body 5.  The ray cast reports `struck`, the planet is
of type `sbType` and its terrain has height `terrain` everywhere.  The vector
library is given on vectors along one axis and for rotations by the angle
zero, where it is exact. -/
def demoWorld (struck : Option Ptr) (sbType : BodyType) (terrain : Scalar) : World :=
  { classOf := fun p =>
      if p = 1 ∨ p = 2 then ObjectClass.ship
      else if p = 3 then ObjectClass.cityOnPlanet
      else if p = 4 then ObjectClass.planet
      else if p = 5 then ObjectClass.otherBody
      else ObjectClass.otherObject
    GetGeom := fun p => p + 100
    TraceRay := fun _ _ _ _ _ => demoContact struck
    FrameGetBody := fun f => if f = 20 then some 4 else none
    GetSystemBody := fun _ => ⟨7, sbType⟩
    GetTerrainHeight := fun _ _ => terrain
    BodyGetFrame := fun _ => 20
    BodyGetOrient := fun _ => matrix3x3d.Identity
    GetBodyByPath := fun path => ⟨path, sbType⟩
    SpawnMiningContainer := fun _ => 42
    Normalized := fun v => (1 / (|v.x| + |v.y| + |v.z|)) * v
    Length := fun v => |v.x| + |v.y| + |v.z|
    ArbRotate := fun v _ _ => v
    rngDouble1 := 1 / 4
    rngDouble2 := 1 / 2
    rngDoubleRange := fun lo hi => (lo + hi) / 2
    GetTimeStep := 1 / 60 }

/-- A beam fired by ship 1 in frame 20, one unit from the centre of the
frame. -/
def demoBeam (mining active : Bool) : Beam :=
  { frame := 20
    position := ⟨1, 0, 0⟩
    orient := matrix3x3d.Identity
    interpPos := ⟨1, 0, 0⟩
    interpOrient := matrix3x3d.Identity
    flags := 4
    clipRadius := 1000
    physRadius := 1000
    parent := some 1
    dir := ⟨0, 0, 1⟩
    baseVel := ⟨2, 0, 0⟩
    baseDam := 25
    length := 1000
    age := 0
    mining := mining
    active := active
    color := ⟨255, 0, 0, 255⟩
    parentIndex := 0 }

/-- A base class for the concrete inputs that saves no member and loads and
fixes up without change. -/
def demoUtils : JsonUtils :=
  { BodySaveToJson := fun _ _ => ⟨none⟩
    BodyLoadFromJson := fun _ _ base => Except.ok base
    BodyPostLoadFixup := fun _ base => base }

/-- A space whose body index holds the null body at index 0 and the body at
address `p` at index `p + 1`. -/
def demoSpace : Space :=
  { GetIndexForBody := fun body =>
      match body with
      | none => 0
      | some p => p + 1
    GetBodyByIndex := fun i => if i ≤ 0 then none else some (i.toNat - 1) }

/-- A saved record whose `"projectile"` object lacks the member `"dir"`. -/
def demoRecordNoDir : JsonObj :=
  { body := ⟨none⟩
    projectile := some
      { dir := none
        base_dam := some "+25/1"
        length := some "+1000/1"
        mining := some false
        color := some ⟨255, 0, 0, 255⟩
        index_for_body := some 2 } }

/-! ## Aging and movement -/

/-- The sum of two vectors, by components. -/
theorem vector3d.add_def (a b : vector3d) :
    a + b = ⟨a.x + b.x, a.y + b.y, a.z + b.z⟩ := rfl

/-- The product of a vector with a scalar on the right, by components. -/
theorem vector3d.mul_scalar_def (a : vector3d) (s : Scalar) :
    a * s = ⟨s * a.x, s * a.y, s * a.z⟩ := rfl

/-- The product of a vector with a scalar on the left, by components. -/
theorem vector3d.scalar_mul_def (s : Scalar) (a : vector3d) :
    s * a = ⟨s * a.x, s * a.y, s * a.z⟩ := rfl

/-- The new age and the new position of `TimeStepUpdate`, and the calls it
makes. -/
theorem TimeStepUpdate_eq (this : Ptr) (b : Beam) (dt : Scalar) :
    (b.TimeStepUpdate this dt).1.age = b.age + dt ∧
    (b.TimeStepUpdate this dt).1.position = b.position + (b.baseVel * dt) ∧
    (b.TimeStepUpdate this dt).2 =
      (if b.age + dt > lifetime then [Effect.KillBody this] else []) := by
  simp [Beam.TimeStepUpdate]

/-- Counterexample to C5: a beam of age 0 stepped by `0.2` exceeds the
lifetime and is marked for removal, and its position has moved from
`(1, 0, 0)` to `(1.4, 0, 0)`. -/
theorem C5_counterexample :
    ((demoBeam false true).TimeStepUpdate 9 (1 / 5)).1.age > lifetime ∧
    ((demoBeam false true).TimeStepUpdate 9 (1 / 5)).2 = [Effect.KillBody 9] ∧
    (demoBeam false true).position = ⟨1, 0, 0⟩ ∧
    ((demoBeam false true).TimeStepUpdate 9 (1 / 5)).1.position = ⟨7 / 5, 0, 0⟩ ∧
    ((demoBeam false true).TimeStepUpdate 9 (1 / 5)).1.position ≠
      (demoBeam false true).position := by
  refine ⟨?_, ?_, rfl, ?_, ?_⟩
  · simp only [Beam.TimeStepUpdate, demoBeam, lifetime]; norm_num
  · simp only [Beam.TimeStepUpdate, demoBeam, lifetime]; norm_num
  · simp only [Beam.TimeStepUpdate, demoBeam, vector3d.add_def, vector3d.mul_scalar_def]
    norm_num
  · simp only [Beam.TimeStepUpdate, demoBeam, vector3d.add_def, vector3d.mul_scalar_def]
    norm_num

/-- C5 as amended: `TimeStepUpdate` advances the position by
`baseVelocity * dt` on every call, whether or not the incremented age exceeds
the lifetime; when it does, the beam is in addition marked for removal, and
otherwise no call is made. -/
theorem C5_position_always_advances (this : Ptr) (b : Beam) (dt : Scalar) :
    (b.TimeStepUpdate this dt).1.position = b.position + (b.baseVel * dt) ∧
    (b.age + dt > lifetime → (b.TimeStepUpdate this dt).2 = [Effect.KillBody this]) ∧
    (¬ b.age + dt > lifetime → (b.TimeStepUpdate this dt).2 = []) := by
  obtain ⟨-, hpos, heff⟩ := TimeStepUpdate_eq this b dt
  refine ⟨hpos, ?_, ?_⟩
  · intro h; rw [heff]; simp [h]
  · intro h; rw [heff]; simp [h]

/-- Witness of C5 as amended: the step by `0.2` of a beam of age 0 moves the
beam and marks it for removal. -/
theorem C5_position_always_advances_witness :
    (demoBeam false true).age + 1 / 5 > lifetime ∧
    ((demoBeam false true).TimeStepUpdate 9 (1 / 5)).2 = [Effect.KillBody 9] := by
  have hgt : (demoBeam false true).age + 1 / 5 > lifetime := by
    simp only [demoBeam, lifetime]; norm_num
  exact ⟨hgt, (C5_position_always_advances 9 (demoBeam false true) (1 / 5)).2.1 hgt⟩

/-! ## Collision and damage resolution -/

/-- An object that is a `BODY` is not a `CITYONPLANET`. -/
theorem IsType_body_not_city (cls : ObjectClass) (h : IsType cls ObjectType.BODY = true) :
    IsType cls ObjectType.CITYONPLANET = false := by
  cases cls <;> simp [IsType] at h ⊢

/-- An inactive beam: `StaticUpdate` returns at entry, with no call and no
change. -/
theorem StaticUpdate_inactive (w : World) (this : Ptr) (b : Beam) (h : b.active = false) :
    b.StaticUpdate w this = some (b, []) := by
  simp [Beam.StaticUpdate, h]

/-- An active beam whose ray cast yields `c`: the body-hit check on `c`, then
the terrain check on the beam left by the body-hit check. -/
theorem StaticUpdate_active (w : World) (this : Ptr) (b : Beam) (c : CollisionContact)
    (h : b.active = true) (hray : b.rayCast w = some c) :
    b.StaticUpdate w this =
      some (((b.resolveContact w this c).1.testTerrain w this).1,
        (b.resolveContact w this c).2 ++ ((b.resolveContact w this c).1.testTerrain w this).2) := by
  simp [Beam.StaticUpdate, h, hray]

/-- The terrain check does nothing for a beam that is not a mining beam. -/
theorem testTerrain_not_mining (w : World) (this : Ptr) (b : Beam) (h : b.mining = false) :
    b.testTerrain w this = (b, []) := by
  simp [Beam.testTerrain, h]

/-- The body-hit check when the ray struck a body other than the parent. -/
theorem resolveContact_body (w : World) (this : Ptr) (b : Beam) (c : CollisionContact)
    (hit : Ptr) (hstruck : c.userData1 = some hit)
    (hcity : IsType (w.classOf hit) ObjectType.CITYONPLANET = false)
    (hbody : IsType (w.classOf hit) ObjectType.BODY = true) (hne : some hit ≠ b.parent) :
    b.resolveContact w this c =
      ({ b with active := false },
        Effect.OnDamage hit b.parent b.GetDamage c ::
          (if IsType (w.classOf hit) ObjectType.SHIP then
            [Effect.LuaEventQueue "onShipHit" (some hit) b.parent]
          else [])) := by
  simp [Beam.resolveContact, hstruck, hcity, hbody, hne]

/-- C1: an active beam that is not a mining beam, whose ray cast strikes a
ship other than its parent: `StaticUpdate` makes exactly the two calls
`OnDamage` on the struck ship, with the parent as attacker and the amount
`GetDamage() = baseDamage`, and the notification `"onShipHit"` with the struck
ship as victim and the parent as attacker; it leaves the beam inactive. -/
theorem C1_ship_hit (w : World) (this : Ptr) (b : Beam) (c : CollisionContact) (hit : Ptr)
    (hactive : b.active = true) (hmining : b.mining = false)
    (hray : b.rayCast w = some c) (hstruck : c.userData1 = some hit)
    (hship : w.classOf hit = ObjectClass.ship) (hne : some hit ≠ b.parent) :
    b.StaticUpdate w this =
      some ({ b with active := false },
        [Effect.OnDamage hit b.parent b.baseDam c,
          Effect.LuaEventQueue "onShipHit" (some hit) b.parent]) ∧
    b.GetDamage = b.baseDam := by
  refine ⟨?_, rfl⟩
  rw [StaticUpdate_active w this b c hactive hray,
    resolveContact_body w this b c hit hstruck (by rw [hship]; rfl) (by rw [hship]; rfl) hne]
  simp only []
  rw [testTerrain_not_mining w this { b with active := false } hmining]
  simp [hship, IsType, Beam.GetDamage]

/-- Witness of C1: the beam of ship 1 strikes ship 2. -/
theorem C1_ship_hit_witness :
    (demoBeam false true).StaticUpdate (demoWorld (some 2) BodyType.TYPE_PLANET_ASTEROID 0) 9 =
      some (demoBeam false false,
        [Effect.OnDamage 2 (some 1) 25 (demoContact (some 2)),
          Effect.LuaEventQueue "onShipHit" (some 2) (some 1)]) :=
  (C1_ship_hit (demoWorld (some 2) BodyType.TYPE_PLANET_ASTEROID 0) 9 (demoBeam false true)
    (demoContact (some 2)) 2 rfl rfl rfl rfl rfl (by decide)).1

/-- Counterexample to C3: an inactive beam whose ray cast, made from its pose,
strikes the city-on-planet 3: `StaticUpdate` makes no call, so it does not
request the removal of the beam. -/
theorem C3_counterexample :
    (demoBeam true false).active = false ∧
    (demoBeam true false).rayCast (demoWorld (some 3) BodyType.TYPE_PLANET_ASTEROID 0) =
      some (demoContact (some 3)) ∧
    (demoContact (some 3)).userData1 = some 3 ∧
    IsType ((demoWorld (some 3) BodyType.TYPE_PLANET_ASTEROID 0).classOf 3)
      ObjectType.CITYONPLANET = true ∧
    (demoBeam true false).StaticUpdate (demoWorld (some 3) BodyType.TYPE_PLANET_ASTEROID 0) 9 =
      some (demoBeam true false, []) ∧
    ¬ (∃ r, (demoBeam true false).StaticUpdate
        (demoWorld (some 3) BodyType.TYPE_PLANET_ASTEROID 0) 9 = some r ∧
      Effect.KillBody 9 ∈ r.2) := by
  have hs := StaticUpdate_inactive (demoWorld (some 3) BodyType.TYPE_PLANET_ASTEROID 0) 9
    (demoBeam true false) rfl
  refine ⟨rfl, rfl, rfl, rfl, hs, ?_⟩
  rintro ⟨r, hr, hmem⟩
  rw [hs] at hr
  cases hr
  simp at hmem

/-- C3 as amended: an active beam, whatever its mining flag, whose ray cast
strikes geometry tagged city-on-planet: `StaticUpdate` requests the removal of
the beam itself, as its first call. -/
theorem C3_city_hit_active (w : World) (this : Ptr) (b : Beam) (c : CollisionContact)
    (o : Ptr) (hactive : b.active = true) (hray : b.rayCast w = some c)
    (hstruck : c.userData1 = some o)
    (hcity : IsType (w.classOf o) ObjectType.CITYONPLANET = true) :
    b.StaticUpdate w this =
      some ((b.testTerrain w this).1, Effect.KillBody this :: (b.testTerrain w this).2) ∧
    ∃ r, b.StaticUpdate w this = some r ∧ Effect.KillBody this ∈ r.2 := by
  have h : b.StaticUpdate w this =
      some ((b.testTerrain w this).1, Effect.KillBody this :: (b.testTerrain w this).2) := by
    rw [StaticUpdate_active w this b c hactive hray]
    simp [Beam.resolveContact, hstruck, hcity]
  exact ⟨h, _, h, by simp⟩

/-- Witness of C3 as amended: an active mining beam strikes the
city-on-planet 3 and requests its own removal. -/
theorem C3_city_hit_active_witness :
    ∃ r, (demoBeam true true).StaticUpdate
        (demoWorld (some 3) BodyType.TYPE_PLANET_ASTEROID 0) 9 = some r ∧
      Effect.KillBody 9 ∈ r.2 :=
  (C3_city_hit_active (demoWorld (some 3) BodyType.TYPE_PLANET_ASTEROID 0) 9 (demoBeam true true)
    (demoContact (some 3)) 3 rfl rfl rfl rfl).2

/-- The terrain check of a mining beam in a frame anchored to a planet. -/
theorem testTerrain_planet (w : World) (this : Ptr) (b : Beam) (planet : Ptr)
    (hmining : b.mining = true) (hframe : w.FrameGetBody b.frame = some planet)
    (hplanet : IsType (w.classOf planet) ObjectType.PLANET = true) :
    b.testTerrain w this =
      if w.GetTerrainHeight planet (w.Normalized b.position) > w.Length b.position then
        ({ b with active := false },
          if (w.GetSystemBody planet).type = BodyType.TYPE_PLANET_ASTEROID then
            MiningLaserSpawnTastyStuff w (w.BodyGetFrame planet) (w.GetSystemBody planet)
                (w.Normalized b.position * w.GetTerrainHeight planet (w.Normalized b.position)
                  + (5 : Scalar) * w.Normalized b.position)
              ++ [Effect.SfxAdd this SfxType.TYPE_EXPLOSION]
          else [])
      else (b, []) := by
  simp [Beam.testTerrain, hmining, hframe, hplanet]

/-- C6: an active mining beam in a frame anchored to a planet, whose ray cast
strikes nothing.  Below the terrain height, `StaticUpdate` leaves the beam
inactive and makes no `OnDamage` call; on an asteroid it adds exactly one
cargo body and triggers exactly one effect, the explosion, and on any other
planet it adds no cargo body and triggers no effect.  At or above the terrain
height the beam stays active and no call is made. -/
theorem C6_terrain_penetration (w : World) (this : Ptr) (b : Beam) (c : CollisionContact)
    (planet : Ptr) (hactive : b.active = true) (hmining : b.mining = true)
    (hframe : w.FrameGetBody b.frame = some planet)
    (hplanet : w.classOf planet = ObjectClass.planet)
    (hray : b.rayCast w = some c) (hmiss : c.userData1 = none) :
    (w.Length b.position < w.GetTerrainHeight planet (w.Normalized b.position) →
      ∃ b1 effs, b.StaticUpdate w this = some (b1, effs) ∧ b1.active = false ∧
        effs.countP Effect.isOnDamage = 0 ∧
        ((w.GetSystemBody planet).type = BodyType.TYPE_PLANET_ASTEROID →
          effs.countP Effect.isCargoSpawn = 1 ∧ effs.countP Effect.isSfx = 1 ∧
          Effect.SfxAdd this SfxType.TYPE_EXPLOSION ∈ effs) ∧
        ((w.GetSystemBody planet).type ≠ BodyType.TYPE_PLANET_ASTEROID →
          effs.countP Effect.isCargoSpawn = 0 ∧ effs.countP Effect.isSfx = 0)) ∧
    (w.GetTerrainHeight planet (w.Normalized b.position) ≤ w.Length b.position →
      b.StaticUpdate w this = some (b, []) ∧ b.active = true) := by
  have hres : b.resolveContact w this c = (b, []) := by
    simp [Beam.resolveContact, hmiss]
  have hstep := StaticUpdate_active w this b c hactive hray
  rw [hres] at hstep
  simp only [List.nil_append] at hstep
  rw [testTerrain_planet w this b planet hmining hframe (by rw [hplanet]; rfl)] at hstep
  constructor
  · intro hlt
    rw [if_pos hlt] at hstep
    refine ⟨_, _, hstep, rfl, ?_, ?_, ?_⟩
    · by_cases ha : (w.GetSystemBody planet).type = BodyType.TYPE_PLANET_ASTEROID <;>
        simp [ha, MiningLaserSpawnTastyStuff, Effect.isOnDamage]
    · intro ha
      simp [ha, MiningLaserSpawnTastyStuff, Effect.isCargoSpawn, Effect.isSfx]
    · intro ha
      simp [ha]
  · intro hge
    rw [if_neg (not_lt.mpr hge)] at hstep
    exact ⟨hstep, hactive⟩

/-- Witness of C6: a mining beam one unit from the centre of an asteroid
whose terrain is three units high: one cargo body, then the explosion. -/
theorem C6_terrain_penetration_witness :
    ∃ b1 effs, (demoBeam true true).StaticUpdate
        (demoWorld none BodyType.TYPE_PLANET_ASTEROID 3) 9 = some (b1, effs) ∧
      b1.active = false ∧ effs.countP Effect.isOnDamage = 0 ∧
      effs.countP Effect.isCargoSpawn = 1 ∧ effs.countP Effect.isSfx = 1 := by
  obtain ⟨b1, effs, h1, h2, h3, h4, -⟩ :=
    (C6_terrain_penetration (demoWorld none BodyType.TYPE_PLANET_ASTEROID 3) 9
      (demoBeam true true) (demoContact none) 4 rfl rfl rfl rfl rfl rfl).1
      (by simp only [demoWorld, demoBeam]; norm_num)
  exact ⟨b1, effs, h1, h2, h3, (h4 rfl).1, (h4 rfl).2.1⟩

/-- C10: the two checks of `StaticUpdate` are not exclusive within one call.
An active mining beam in a frame anchored to an asteroid, whose ray strikes a
body other than its parent and whose position is below the terrain height:
the one call applies the damage to the struck body and also adds one cargo
body and triggers the explosion; the beam is left inactive. -/
theorem C10_hit_and_spawn_in_one_call (w : World) (this : Ptr) (b : Beam)
    (c : CollisionContact) (hit planet : Ptr)
    (hactive : b.active = true) (hmining : b.mining = true)
    (hframe : w.FrameGetBody b.frame = some planet)
    (hplanet : w.classOf planet = ObjectClass.planet)
    (hasteroid : (w.GetSystemBody planet).type = BodyType.TYPE_PLANET_ASTEROID)
    (hray : b.rayCast w = some c) (hstruck : c.userData1 = some hit)
    (hbody : IsType (w.classOf hit) ObjectType.BODY = true) (hne : some hit ≠ b.parent)
    (hbelow : w.Length b.position < w.GetTerrainHeight planet (w.Normalized b.position)) :
    ∃ b1 effs, b.StaticUpdate w this = some (b1, effs) ∧ b1.active = false ∧
      Effect.OnDamage hit b.parent b.baseDam c ∈ effs ∧
      effs.countP Effect.isOnDamage = 1 ∧
      effs.countP Effect.isCargoSpawn = 1 ∧
      Effect.SfxAdd this SfxType.TYPE_EXPLOSION ∈ effs := by
  have hcity := IsType_body_not_city (w.classOf hit) hbody
  have hstep := StaticUpdate_active w this b c hactive hray
  rw [resolveContact_body w this b c hit hstruck hcity hbody hne] at hstep
  simp only [] at hstep
  rw [testTerrain_planet w this { b with active := false } planet hmining hframe
    (by rw [hplanet]; rfl)] at hstep
  simp only [] at hstep
  rw [if_pos hbelow, if_pos hasteroid] at hstep
  refine ⟨_, _, hstep, rfl, ?_, ?_, ?_, ?_⟩
  · simp [Beam.GetDamage]
  · by_cases hs : IsType (w.classOf hit) ObjectType.SHIP = true <;>
      simp [hs, MiningLaserSpawnTastyStuff, Effect.isOnDamage]
  · by_cases hs : IsType (w.classOf hit) ObjectType.SHIP = true <;>
      simp [hs, MiningLaserSpawnTastyStuff, Effect.isCargoSpawn]
  · simp

/-- The calls of one `StaticUpdate` of the mining beam of ship 1 that strikes
the body 5 while below the terrain of an asteroid, in order: the damage, the
cargo body, the explosion. -/
theorem StaticUpdate_demo_hit_and_spawn :
    (demoBeam true true).StaticUpdate (demoWorld (some 5) BodyType.TYPE_PLANET_ASTEROID 3) 9 =
      some (demoBeam true false,
        [Effect.OnDamage 5 (some 1) 25 (demoContact (some 5)),
          Effect.AddBody (AddedBody.cargo ⟨42, 20, ⟨8, 0, 0⟩, ⟨150, 0, 0⟩⟩),
          Effect.SfxAdd 9 SfxType.TYPE_EXPLOSION]) := by
  simp only [Beam.StaticUpdate, Beam.rayCast, Beam.resolveContact, Beam.testTerrain,
    MiningLaserSpawnTastyStuff, demoBeam, demoWorld, demoContact, IsType, Beam.GetDamage,
    vector3d.add_def, vector3d.mul_scalar_def, vector3d.scalar_mul_def]
  norm_num

/-- Witness of C10: the mining beam of ship 1 strikes the body 5 while below
the terrain of an asteroid. -/
theorem C10_hit_and_spawn_in_one_call_witness :
    ∃ b1 effs, (demoBeam true true).StaticUpdate
        (demoWorld (some 5) BodyType.TYPE_PLANET_ASTEROID 3) 9 = some (b1, effs) ∧
      b1.active = false ∧
      Effect.OnDamage 5 (some 1) 25 (demoContact (some 5)) ∈ effs ∧
      effs.countP Effect.isOnDamage = 1 ∧
      effs.countP Effect.isCargoSpawn = 1 ∧
      Effect.SfxAdd 9 SfxType.TYPE_EXPLOSION ∈ effs :=
  C10_hit_and_spawn_in_one_call (demoWorld (some 5) BodyType.TYPE_PLANET_ASTEROID 3) 9
    (demoBeam true true) (demoContact (some 5)) 5 4 rfl rfl rfl rfl rfl rfl rfl rfl
    (by decide) (by simp only [demoWorld, demoBeam]; norm_num)

/-! ## The active flag -/

/-- The outcomes of the body-hit check: no change and at most the removal
request, or a contact with a body other than the parent, one `OnDamage` call
on it, at most one notification after it, and the beam left inactive. -/
theorem resolveContact_cases (w : World) (this : Ptr) (b : Beam) (c : CollisionContact) :
    (b.resolveContact w this c = (b, []) ∨
      b.resolveContact w this c = (b, [Effect.KillBody this])) ∨
    (c.isOtherBody w b.parent = true ∧
      ∃ hit, some hit ≠ b.parent ∧
        (b.resolveContact w this c =
            ({ b with active := false }, [Effect.OnDamage hit b.parent b.baseDam c]) ∨
          b.resolveContact w this c =
            ({ b with active := false },
              [Effect.OnDamage hit b.parent b.baseDam c,
                Effect.LuaEventQueue "onShipHit" (some hit) b.parent]))) := by
  unfold Beam.resolveContact CollisionContact.isOtherBody
  cases hu : c.userData1 with
  | none => simp
  | some o =>
    by_cases hcity : IsType (w.classOf o) ObjectType.CITYONPLANET = true
    · simp [hcity]
    · by_cases hbody : IsType (w.classOf o) ObjectType.BODY = true
      · by_cases hne : some o = b.parent
        · simp [hcity, hbody, hne]
        · right
          refine ⟨by simp [hcity, hbody, hne], o, hne, ?_⟩
          by_cases hs : IsType (w.classOf o) ObjectType.SHIP = true <;>
            simp [hcity, hbody, hne, hs, Beam.GetDamage]
      · simp [hcity, hbody]

/-- The outcomes of the terrain check: no change and no call, or a mining beam
below the terrain left inactive, with no call or with one cargo body and the
explosion. -/
theorem testTerrain_cases (w : World) (this : Ptr) (b : Beam) :
    b.testTerrain w this = (b, []) ∨
    (b.penetratedTerrain w = true ∧
      (b.testTerrain w this = ({ b with active := false }, []) ∨
        ∃ cargo, b.testTerrain w this =
          ({ b with active := false },
            [Effect.AddBody (AddedBody.cargo cargo),
              Effect.SfxAdd this SfxType.TYPE_EXPLOSION]))) := by
  unfold Beam.testTerrain Beam.penetratedTerrain
  by_cases hm : b.mining = true
  · cases hf : w.FrameGetBody b.frame with
    | none => simp [hm]
    | some planet =>
      by_cases hp : IsType (w.classOf planet) ObjectType.PLANET = true
      · by_cases hh : w.GetTerrainHeight planet (w.Normalized b.position) > w.Length b.position
        · right
          refine ⟨by simp [hm, hp, hh], ?_⟩
          by_cases ha : (w.GetSystemBody planet).type = BodyType.TYPE_PLANET_ASTEROID
          · right
            simp [hm, hp, hh, ha, MiningLaserSpawnTastyStuff]
          · left
            simp [hm, hp, hh, ha]
        · simp [hm, hp, hh]
      · simp [hm, hp]
  · simp [hm]

/-- A `StaticUpdate` that returns with the beam inactive, entered with the
beam active, struck a body other than the parent or penetrated the terrain. -/
theorem StaticUpdate_deactivates (w : World) (this : Ptr) (b b1 : Beam) (effs : List Effect)
    (hstep : b.StaticUpdate w this = some (b1, effs)) (hactive : b.active = true)
    (hoff : b1.active = false) :
    b.struckOtherBody w = true ∨ b.penetratedTerrain w = true := by
  cases hray : b.rayCast w with
  | none => simp [Beam.StaticUpdate, hactive, hray] at hstep
  | some c =>
    rw [StaticUpdate_active w this b c hactive hray] at hstep
    simp only [Option.some.injEq, Prod.mk.injEq] at hstep
    obtain ⟨hb1, -⟩ := hstep
    rcases resolveContact_cases w this b c with (hr | hr) | ⟨hother, -⟩
    · rw [hr] at hb1
      rcases testTerrain_cases w this b with ht | ⟨hpen, -⟩
      · rw [ht] at hb1
        subst hb1
        rw [hactive] at hoff
        cases hoff
      · exact Or.inr hpen
    · rw [hr] at hb1
      rcases testTerrain_cases w this b with ht | ⟨hpen, -⟩
      · rw [ht] at hb1
        subst hb1
        rw [hactive] at hoff
        cases hoff
      · exact Or.inr hpen
    · left
      simp [Beam.struckOtherBody, hray, hother]

/-- C7: the active flag is monotone.  The constructor and `Add` yield an
active beam; `TimeStepUpdate`, `NotifyRemoved` and `UpdateInterpTransform`
leave the flag as it is; `StaticUpdate` on an inactive beam returns the beam
unchanged; and a `StaticUpdate` that turns the flag from true to false struck
a body other than the parent or is the call of a mining beam below the
terrain. -/
theorem C7_active_monotone :
    (∀ drawLast raw, (Beam.ctor drawLast raw).active = true) ∧
    (∀ w drawLast raw this parent prData pos baseVel dir,
      (Beam.Add w drawLast raw this parent prData pos baseVel dir).1.active = true) ∧
    (∀ this b dt, (Beam.TimeStepUpdate this b dt).1.active = b.active) ∧
    (∀ b removedBody, (Beam.NotifyRemoved b removedBody).active = b.active) ∧
    (∀ w b alpha, (Beam.UpdateInterpTransform w b alpha).active = b.active) ∧
    (∀ w this b, b.active = false → Beam.StaticUpdate w this b = some (b, [])) ∧
    (∀ w this b b1 effs, Beam.StaticUpdate w this b = some (b1, effs) →
      (b.active = false → b1.active = false) ∧
      (b.active = true → b1.active = false →
        b.struckOtherBody w = true ∨ b.penetratedTerrain w = true)) := by
  refine ⟨fun _ _ => rfl, fun _ _ _ _ _ _ _ _ _ => rfl, fun _ _ _ => rfl, ?_, fun _ _ _ => rfl,
    StaticUpdate_inactive, ?_⟩
  · intro b removedBody
    unfold Beam.NotifyRemoved
    split <;> rfl
  · intro w this b b1 effs hstep
    refine ⟨fun hoff => ?_, StaticUpdate_deactivates w this b b1 effs hstep⟩
    rw [StaticUpdate_inactive w this b hoff] at hstep
    cases hstep
    exact hoff

/-- Witness of C7: the beam of ship 1 is deactivated by a `StaticUpdate` in
which it strikes ship 2. -/
theorem C7_active_monotone_witness :
    (demoBeam false true).struckOtherBody (demoWorld (some 2) BodyType.TYPE_PLANET_ASTEROID 0)
        = true ∨
      (demoBeam false true).penetratedTerrain (demoWorld (some 2) BodyType.TYPE_PLANET_ASTEROID 0)
        = true :=
  (C7_active_monotone.2.2.2.2.2.2 (demoWorld (some 2) BodyType.TYPE_PLANET_ASTEROID 0) 9
    (demoBeam false true) (demoBeam false false)
    [Effect.OnDamage 2 (some 1) 25 (demoContact (some 2)),
      Effect.LuaEventQueue "onShipHit" (some 2) (some 1)] rfl).2 rfl rfl

/-! ## Damage and cargo at most once -/

/-- One `StaticUpdate` of a beam with parent `p` returns; the parent is kept;
no `OnDamage` call is on `p`; and an `OnDamage` call or a cargo body uses up
the active flag: the number of such calls plus one for a beam still active
does not exceed one for a beam active at entry. -/
theorem StaticUpdate_budget (w : World) (this : Ptr) (b : Beam) (p : Ptr)
    (hp : b.parent = some p) :
    ∃ b1 effs, b.StaticUpdate w this = some (b1, effs) ∧ b1.parent = some p ∧
      effs.countP Effect.isOnDamage + (if b1.active = true then 1 else 0) ≤
        (if b.active = true then 1 else 0) ∧
      effs.countP Effect.isCargoSpawn + (if b1.active = true then 1 else 0) ≤
        (if b.active = true then 1 else 0) ∧
      effs.countP (Effect.damages p) = 0 := by
  by_cases hactive : b.active = true
  · have hray : b.rayCast w = some
        (w.TraceRay b.frame b.position (w.Normalized b.dir) b.length (w.GetGeom p)) := by
      simp [Beam.rayCast, hp]
    refine ⟨_, _, StaticUpdate_active w this b _ hactive hray, ?_⟩
    generalize w.TraceRay b.frame b.position (w.Normalized b.dir) b.length (w.GetGeom p) = c
    rcases resolveContact_cases w this b c with (hr | hr) | ⟨-, hit, hne, hr | hr⟩ <;> rw [hr] <;>
      simp only []
    · rcases testTerrain_cases w this b with ht | ⟨-, ht | ⟨cargo, ht⟩⟩ <;> rw [ht] <;>
        simp [hp, hactive, Effect.isOnDamage, Effect.isCargoSpawn, Effect.damages]
    · rcases testTerrain_cases w this b with ht | ⟨-, ht | ⟨cargo, ht⟩⟩ <;> rw [ht] <;>
        simp [hp, hactive, Effect.isOnDamage, Effect.isCargoSpawn, Effect.damages]
    · have hne1 : hit ≠ p := fun h => hne (by rw [h, hp])
      rcases testTerrain_cases w this { b with active := false } with
        ht | ⟨-, ht | ⟨cargo, ht⟩⟩ <;> rw [ht] <;>
        simp [hp, hactive, hne1, Effect.isOnDamage, Effect.isCargoSpawn, Effect.damages]
    · have hne1 : hit ≠ p := fun h => hne (by rw [h, hp])
      rcases testTerrain_cases w this { b with active := false } with
        ht | ⟨-, ht | ⟨cargo, ht⟩⟩ <;> rw [ht] <;>
        simp [hp, hactive, hne1, Effect.isOnDamage, Effect.isCargoSpawn, Effect.damages]
  · have hoff : b.active = false := by simpa using hactive
    exact ⟨b, [], StaticUpdate_inactive w this b hoff, hp, by simp, by simp, by simp⟩

/-- One tick of a beam with parent `p`: as for `StaticUpdate`, the calls of
`TimeStepUpdate` being removal requests only. -/
theorem tick_budget (this : Ptr) (b : Beam) (t : Tick) (p : Ptr) (hp : b.parent = some p) :
    ∃ b1 effs, b.tick this t = some (b1, effs) ∧ b1.parent = some p ∧
      effs.countP Effect.isOnDamage + (if b1.active = true then 1 else 0) ≤
        (if b.active = true then 1 else 0) ∧
      effs.countP Effect.isCargoSpawn + (if b1.active = true then 1 else 0) ≤
        (if b.active = true then 1 else 0) ∧
      effs.countP (Effect.damages p) = 0 := by
  obtain ⟨b1, effs, hstep, hp1, hd, hc, hpar⟩ :=
    StaticUpdate_budget t.world this (b.TimeStepUpdate this t.timeStep).1 p hp
  have hkill : ∀ q : Effect → Bool, q (Effect.KillBody this) = false →
      (b.TimeStepUpdate this t.timeStep).2.countP q = 0 := by
    intro q hq
    rw [(TimeStepUpdate_eq this b t.timeStep).2.2]
    split <;> simp [hq]
  refine ⟨b1, (b.TimeStepUpdate this t.timeStep).2 ++ effs, ?_, hp1, ?_, ?_, ?_⟩
  · simp [Beam.tick, hstep]
  · rw [List.countP_append, hkill _ rfl]
    simpa using hd
  · rw [List.countP_append, hkill _ rfl]
    simpa using hc
  · rw [List.countP_append, hkill _ rfl, hpar]

/-- A finite run of ticks of a beam with parent `p` returns, with the budget
of `StaticUpdate_budget` for all its calls together. -/
theorem run_budget (this : Ptr) (p : Ptr) (ticks : List Tick) :
    ∀ b : Beam, b.parent = some p →
      ∃ b1 effs, Beam.run this b ticks = some (b1, effs) ∧
        effs.countP Effect.isOnDamage ≤ (if b.active = true then 1 else 0) ∧
        effs.countP Effect.isCargoSpawn ≤ (if b.active = true then 1 else 0) ∧
        effs.countP (Effect.damages p) = 0 := by
  induction ticks with
  | nil =>
    intro b _
    exact ⟨b, [], rfl, by simp, by simp, by simp⟩
  | cons t ts ih =>
    intro b hp
    obtain ⟨b1, e1, hstep, hp1, hd1, hc1, hpar1⟩ := tick_budget this b t p hp
    obtain ⟨b2, e2, hrun, hd2, hc2, hpar2⟩ := ih b1 hp1
    refine ⟨b2, e1 ++ e2, ?_, ?_, ?_, ?_⟩
    · simp [Beam.run, hstep, hrun]
    · rw [List.countP_append]; omega
    · rw [List.countP_append]; omega
    · rw [List.countP_append, hpar1, hpar2]

/-- C2: a freshly spawned beam run through any finite sequence of ticks
(`TimeStepUpdate`, then `StaticUpdate`, with any answers of the collaborators
in each tick): the run returns, it makes at most one `OnDamage` call and adds
at most one cargo body, and no `OnDamage` call is on the parent; and a
`StaticUpdate` on an inactive beam makes no call at all. -/
theorem C2_damage_and_spawn_at_most_once (w : World) (drawLast : Nat) (raw : Beam)
    (this parent : Ptr) (prData : ProjectileData) (pos baseVel dir : vector3d)
    (ticks : List Tick) :
    (∃ b1 effs,
      Beam.run this (Beam.Add w drawLast raw this parent prData pos baseVel dir).1 ticks =
        some (b1, effs) ∧
      effs.countP Effect.isOnDamage ≤ 1 ∧
      effs.countP Effect.isCargoSpawn ≤ 1 ∧
      effs.countP (Effect.damages parent) = 0) ∧
    (∀ w1 this1 b, b.active = false → Beam.StaticUpdate w1 this1 b = some (b, [])) := by
  refine ⟨?_, StaticUpdate_inactive⟩
  obtain ⟨b1, effs, hrun, hd, hc, hpar⟩ :=
    run_budget this parent ticks (Beam.Add w drawLast raw this parent prData pos baseVel dir).1 rfl
  refine ⟨b1, effs, hrun, ?_, ?_, hpar⟩
  · exact le_trans hd (by split <;> simp)
  · exact le_trans hc (by split <;> simp)

/-- Witness of C2: a mining beam spawned by ship 1 and run for two ticks in
which its ray strikes the body 5 below the terrain of an asteroid; and the
`StaticUpdate` of an inactive beam. -/
theorem C2_damage_and_spawn_at_most_once_witness :
    (∃ b1 effs,
      Beam.run 9 (Beam.Add (demoWorld none BodyType.TYPE_PLANET_ASTEROID 3) 4 (demoBeam true false)
          9 1 ⟨25, 1000, true, ⟨255, 0, 0, 255⟩⟩ ⟨1, 0, 0⟩ ⟨2, 0, 0⟩ ⟨0, 0, 1⟩).1
          [⟨1 / 60, demoWorld (some 5) BodyType.TYPE_PLANET_ASTEROID 3⟩,
            ⟨1 / 60, demoWorld (some 5) BodyType.TYPE_PLANET_ASTEROID 3⟩] =
        some (b1, effs) ∧
      effs.countP Effect.isOnDamage ≤ 1 ∧
      effs.countP Effect.isCargoSpawn ≤ 1 ∧
      effs.countP (Effect.damages 1) = 0) ∧
    Beam.StaticUpdate (demoWorld (some 5) BodyType.TYPE_PLANET_ASTEROID 3) 9 (demoBeam true false) =
      some (demoBeam true false, []) :=
  ⟨(C2_damage_and_spawn_at_most_once (demoWorld none BodyType.TYPE_PLANET_ASTEROID 3) 4
      (demoBeam true false) 9 1 ⟨25, 1000, true, ⟨255, 0, 0, 255⟩⟩ ⟨1, 0, 0⟩ ⟨2, 0, 0⟩ ⟨0, 0, 1⟩
      [⟨1 / 60, demoWorld (some 5) BodyType.TYPE_PLANET_ASTEROID 3⟩,
        ⟨1 / 60, demoWorld (some 5) BodyType.TYPE_PLANET_ASTEROID 3⟩]).1,
    (C2_damage_and_spawn_at_most_once (demoWorld none BodyType.TYPE_PLANET_ASTEROID 3) 4
      (demoBeam true false) 9 1 ⟨25, 1000, true, ⟨255, 0, 0, 255⟩⟩ ⟨1, 0, 0⟩ ⟨2, 0, 0⟩ ⟨0, 0, 1⟩
      []).2 (demoWorld (some 5) BodyType.TYPE_PLANET_ASTEROID 3) 9 (demoBeam true false) rfl⟩

/-! ## Persistence -/

/-- C8: `LoadFromJson` throws `SavedGameCorruptException` whenever the member
`"projectile"` is missing or one of its members `dir`, `base_dam`, `length`,
`mining`, `color`, `index_for_body` is missing; when all of them are present
and the base class loads, it returns a beam and throws nothing. -/
theorem C8_missing_member_is_corrupt (U : JsonUtils) (jsonObj : JsonObj) (space : Space)
    (b : Beam) :
    ((jsonObj.projectile = none ∨
        ∃ p, jsonObj.projectile = some p ∧
          (p.dir = none ∨ p.base_dam = none ∨ p.length = none ∨ p.mining = none ∨
            p.color = none ∨ p.index_for_body = none)) →
      Beam.LoadFromJson U jsonObj space b =
        Except.error LoadError.SavedGameCorruptException) ∧
    (∀ p base, jsonObj.projectile = some p →
      p.dir ≠ none → p.base_dam ≠ none → p.length ≠ none → p.mining ≠ none →
      p.color ≠ none → p.index_for_body ≠ none →
      U.BodyLoadFromJson jsonObj.body space b.toBody = Except.ok base →
      (∃ b1, Beam.LoadFromJson U jsonObj space b = Except.ok b1) ∧
      Beam.LoadFromJson U jsonObj space b ≠
        Except.error LoadError.SavedGameCorruptException) := by
  constructor
  · intro h
    unfold Beam.LoadFromJson
    cases hb : U.BodyLoadFromJson jsonObj.body space b.toBody with
    | error e => cases e; rfl
    | ok base =>
      rcases h with h | ⟨p, hp, h⟩
      · simp [h]
      · obtain ⟨dir, base_dam, length, mining, color, index_for_body⟩ := p
        simp only [hp]
        simp only [] at h
        cases dir <;> cases base_dam <;> cases length <;> cases mining <;> cases color <;>
          cases index_for_body <;> simp [JsonToVector, JsonToColor] at h ⊢
  · intro p base hp hdir hdam hlen hmin hcol hidx hbase
    obtain ⟨dir, base_dam, length, mining, color, index_for_body⟩ := p
    simp only [] at hdir hdam hlen hmin hcol hidx
    have hload : ∃ b1, Beam.LoadFromJson U jsonObj space b = Except.ok b1 := by
      unfold Beam.LoadFromJson
      rw [hbase]
      simp only [hp]
      cases dir <;> cases base_dam <;> cases length <;> cases mining <;> cases color <;>
        cases index_for_body <;> simp [JsonToVector, JsonToColor] at hdir hdam hlen hmin hcol hidx ⊢
    refine ⟨hload, ?_⟩
    obtain ⟨b1, hb1⟩ := hload
    rw [hb1]
    simp

/-- Witness of C8: a record whose `"projectile"` object lacks `"dir"` fails
to load with `SavedGameCorruptException`. -/
theorem C8_missing_member_is_corrupt_witness :
    Beam.LoadFromJson demoUtils demoRecordNoDir demoSpace (demoBeam false true) =
      Except.error LoadError.SavedGameCorruptException :=
  (C8_missing_member_is_corrupt demoUtils demoRecordNoDir demoSpace (demoBeam false true)).1
    (Or.inr ⟨_, rfl, Or.inl rfl⟩)

/-- A decimal digit read back from its character. -/
theorem charDigit_digitChar (d : Nat) (h : d < 10) : charDigit (digitChar d) = d := by
  revert d; decide

/-- The character of a decimal digit is not the slash. -/
theorem digitChar_ne_slash (d : Nat) (h : d < 10) : (digitChar d != '/') = true := by
  revert d; decide

/-- A natural number read back from its decimal digits. -/
theorem textToNat_natToText (n : Nat) : textToNat (natToText n) = n := by
  unfold textToNat natToText
  rw [List.reverse_reverse, List.map_map]
  have h : List.map (charDigit ∘ digitChar) (Nat.digits 10 n) = Nat.digits 10 n := by
    conv_rhs => rw [← List.map_id (Nat.digits 10 n)]
    apply List.map_congr_left
    intro d hd
    exact charDigit_digitChar d (Nat.digits_lt_base (by norm_num) hd)
  rw [h, Nat.ofDigits_digits]

/-- No decimal digit of a natural number is the slash. -/
theorem natToText_ne_slash (n : Nat) : ∀ c ∈ natToText n, (c != '/') = true := by
  intro c hc
  unfold natToText at hc
  rw [List.mem_reverse, List.mem_map] at hc
  obtain ⟨d, hd, rfl⟩ := hc
  exact digitChar_ne_slash d (Nat.digits_lt_base (by norm_num) hd)

/-- Splitting a text at the first character that fails `p`. -/
theorem takeWhile_append_stop (p : Char → Bool) (l r : List Char) (a : Char)
    (hl : ∀ c ∈ l, p c = true) (ha : p a = false) :
    (l ++ a :: r).takeWhile p = l ∧ (l ++ a :: r).dropWhile p = a :: r := by
  induction l with
  | nil => simp [List.takeWhile, List.dropWhile, ha]
  | cons c l ih =>
    have hc : p c = true := hl c (by simp)
    have hrest := ih (fun x hx => hl x (by simp [hx]))
    simp [List.takeWhile, List.dropWhile, hc, hrest.1, hrest.2]

/-- The text of a float is read back as the same value. -/
theorem StrToFloat_FloatToStr (val : Scalar) : StrToFloat (FloatToStr val) = val := by
  unfold StrToFloat FloatToStr
  obtain ⟨ht, hd⟩ := takeWhile_append_stop (fun c => c != '/') (natToText val.num.natAbs)
    (natToText val.den) '/' (natToText_ne_slash _) (by decide)
  simp only [ht, hd, List.drop_succ_cons, List.drop_zero, textToNat_natToText]
  by_cases hneg : val.num < 0
  · simp only [hneg, if_true]
    have hnum : -Int.ofNat val.num.natAbs = val.num := by
      simp only [Int.ofNat_eq_coe, Int.natCast_natAbs]
      rw [abs_of_neg hneg]; ring
    rw [hnum, Rat.mkRat_self]
  · simp only [hneg, if_false]
    have hsign : ('+' = '-') = False := by decide
    simp only [hsign, if_false]
    have hnum : Int.ofNat val.num.natAbs = val.num := by
      simp only [Int.ofNat_eq_coe, Int.natCast_natAbs]
      exact abs_of_nonneg (not_lt.mp hneg)
    rw [hnum, Rat.mkRat_self]

/-- The text of the base damage 25 / 4. -/
theorem FloatToStr_demo : FloatToStr (25 / 4) = "+25/4" := by
  have hnum : ((25 : ℚ) / 4).num = 25 := by norm_num
  have hden : ((25 : ℚ) / 4).den = 4 := by norm_num
  simp only [FloatToStr, hnum, hden, natToText, digitChar]
  norm_num
  decide

/-- A vector stored by `VectorToJson` is read back by `JsonToVector`. -/
theorem JsonToVector_VectorToJson (vec : vector3d) :
    JsonToVector (VectorToJson vec) = Except.ok vec := by
  simp [JsonToVector, VectorToJson, StrToFloat_FloatToStr]

/-- A colour stored by `ColorToJson` is read back by `JsonToColor`. -/
theorem JsonToColor_ColorToJson (col : Color) :
    JsonToColor (ColorToJson col) = Except.ok col := by
  simp [JsonToColor, ColorToJson]

/-- C9: for every beam `b` and every space, `LoadFromJson` applied to the
record written by `SaveToJson` for `b` succeeds; the loaded beam has the
direction, base damage, length, mining flag and colour of `b` and, as stored
parent index, the index of the parent of `b` in the space; `LoadFromJson`
leaves the parent pointer as it was before the call, and `PostLoadFixup` sets
it to the body of the space at the stored index. -/
theorem C9_save_load_roundtrip (space : Space) (b fresh : Beam) :
    ∃ b1, Beam.LoadFromJson bodyUtils (Beam.SaveToJson bodyUtils b space) space fresh =
        Except.ok b1 ∧
      b1.dir = b.dir ∧ b1.baseDam = b.baseDam ∧ b1.length = b.length ∧
      b1.mining = b.mining ∧ b1.color = b.color ∧
      b1.parentIndex = Int.ofNat (space.GetIndexForBody b.parent) ∧
      b1.parent = fresh.parent ∧
      (Beam.PostLoadFixup bodyUtils space b1).parent = space.GetBodyByIndex b1.parentIndex ∧
      (Beam.PostLoadFixup bodyUtils space b1).parent =
        space.GetBodyByIndex (Int.ofNat (space.GetIndexForBody b.parent)) := by
  have hload : Beam.LoadFromJson bodyUtils (Beam.SaveToJson bodyUtils b space) space fresh =
      Except.ok
        { fresh with
          toBody := b.toBody
          dir := b.dir
          baseDam := b.baseDam
          length := b.length
          mining := b.mining
          color := b.color
          parentIndex := Int.ofNat (space.GetIndexForBody b.parent) } := by
    have hcol := JsonToColor_ColorToJson b.color
    have hdir := JsonToVector_VectorToJson b.dir
    simp only [ColorToJson] at hcol
    simp only [VectorToJson] at hdir
    unfold Beam.LoadFromJson Beam.SaveToJson
    simp only [bodyUtils, VectorToJson, ColorToJson, hdir, hcol, StrToFloat_FloatToStr]
  exact ⟨_, hload, rfl, rfl, rfl, rfl, rfl, rfl, rfl, rfl, rfl⟩

/-- An instance of C9: the mining beam of ship 1 with base damage 25 and
length 1000, saved and loaded onto a newly constructed beam; the stored index
is 2, the parent pointer is null after the load, and the fix-up resolves it to
ship 1. -/
theorem C9_save_load_roundtrip_witness :
    ∃ b1, Beam.LoadFromJson bodyUtils (Beam.SaveToJson bodyUtils (demoBeam true true) demoSpace)
        demoSpace (Beam.ctor 4 (demoBeam false false)) = Except.ok b1 ∧
      b1.baseDam = 25 ∧ b1.length = 1000 ∧ b1.mining = true ∧ b1.parentIndex = 2 ∧
      b1.parent = none ∧ (Beam.PostLoadFixup bodyUtils demoSpace b1).parent = some 1 := by
  obtain ⟨b1, h1, -, h3, h4, h5, -, h7, h8, -, h10⟩ :=
    C9_save_load_roundtrip demoSpace (demoBeam true true) (Beam.ctor 4 (demoBeam false false))
  exact ⟨b1, h1, h3, h4, h5, h7, h8, h10⟩

end Pioneer
